import Mathlib

/-!
# Live-score cache-and-refresh pipeline: a shallow embedding

This file embeds the live-score subsystem of the social sports betting
platform (Score model, SportsAPIService provider adapter, ScoreService
orchestrator) as executable Lean definitions and proves properties about
them.

Modelling conventions:
* JavaScript strings stay `String` (sport types and statuses are strings in
  the source, not enums).
* JavaScript `null`/`undefined` values become `Option _`; the JS truthiness
  coercion `s || null` applied to a string is `orEmptyNull` below (the empty
  string is falsy in JS).
* Timestamps are milliseconds since epoch as `Int` (`Date.now()`,
  `getTime()`); `Math.random()` outputs are `ℚ` values in `[0, 1)` supplied
  as explicit parameters.
* Network and database effects become explicit parameters/results: the
  outcome of the external HTTP call is an `Except String ApiResponse`
  argument, the score store is a `List GameRecord` threaded through, and a
  thrown JS `Error` is `Except.error msg`.
-/

namespace SSBP

/-- The six canonical game statuses of the data model (spec §3). -/
def canonicalStatuses : List String :=
  ["scheduled", "live", "halftime", "final", "postponed", "cancelled"]

/-- `validSports` from `ScoreService.getLiveScores`. -/
def validSports : List String :=
  ["football", "basketball", "baseball", "soccer", "hockey", "other"]

/-- JS `s || null` for a nullable string: `null`, `undefined` and the empty
string (all falsy) become `null`. -/
def orEmptyNull : Option String → Option String
  | none => none
  | some s => if s = "" then none else some s

/-- The `statusMap` lookup object of `SportsAPIService._transformNFLGame`,
entry for entry. -/
def statusMapTable : List (String × String) :=
  [("NS", "scheduled"),
   ("LIVE", "live"),
   ("Q1", "live"),
   ("Q2", "live"),
   ("HT", "halftime"),
   ("Q3", "live"),
   ("Q4", "live"),
   ("OT", "live"),
   ("BT", "live"),
   ("P", "live"),
   ("SUSP", "postponed"),
   ("INT", "postponed"),
   ("FT", "final"),
   ("AET", "final"),
   ("PEN", "final"),
   ("PST", "postponed"),
   ("CANC", "cancelled"),
   ("ABD", "cancelled"),
   ("AWD", "final"),
   ("WO", "final")]

/-- `statusMap[apiGame.game.status.short] || 'scheduled'`: object lookup with
the fail-open default of `_transformNFLGame`. -/
def normalizeStatus (short : String) : String :=
  match statusMapTable.find? (fun p => p.1 == short) with
  | some p => p.2
  | none => "scheduled"

/-- The fields of an API Sports NFL game payload that
`_transformNFLGame` reads (`apiGame.game`, `apiGame.teams`,
`apiGame.scores`, `apiGame.league`). `dateDateMs` is the parsed value of
`apiGame.game.date.date` (a date string in the wire format), as
milliseconds, `none` when the field is absent. -/
structure RawNFLGame where
  gameId : Nat
  statusShort : String
  statusLong : Option String
  statusTimer : Option String
  dateTimestamp : Int
  dateDateMs : Option Int
  venueName : Option String
  homeName : String
  awayName : String
  homeLogo : Option String
  awayLogo : Option String
  homeTotal : Option Nat
  awayTotal : Option Nat
  leagueName : String
  leagueSeason : String
  deriving DecidableEq, Repr

/-- The game-record shape produced by the Provider Adapter and consumed by
`Score.upsert` (the `scoreData` object). `metadata` is kept as an opaque
serialized string. -/
structure ScoreData where
  gameId : String
  sportType : String
  homeTeam : String
  awayTeam : String
  homeTeamLogo : Option String
  awayTeamLogo : Option String
  homeScore : Nat
  awayScore : Nat
  status : String
  period : Option String
  timeRemaining : Option String
  scheduledAt : Int
  startedAt : Option Int
  completedAt : Option Int
  venue : Option String
  metadata : Option String
  deriving DecidableEq, Repr

/-- `SportsAPIService._transformNFLGame`: normalize the provider status and
build the `ScoreData` record.  Mirrors the source field for field:
`isLive = ['live','halftime'].includes(status)`, `isFinal = status === 'final'`,
`startedAt: isLive || isFinal ? new Date(timestamp*1000) : null`,
`completedAt: isFinal ? new Date(timestamp*1000) : null`. -/
def SportsAPIService.transformNFLGame (g : RawNFLGame) : ScoreData :=
  let status := normalizeStatus g.statusShort
  let isLive := status == "live" || status == "halftime"
  let isFinal := status == "final"
  { gameId := toString g.gameId
    sportType := "football"
    homeTeam := g.homeName
    awayTeam := g.awayName
    homeTeamLogo := g.homeLogo
    awayTeamLogo := g.awayLogo
    homeScore := g.homeTotal.getD 0
    awayScore := g.awayTotal.getD 0
    status := status
    period := orEmptyNull g.statusLong
    timeRemaining := if isLive then orEmptyNull g.statusTimer else none
    scheduledAt := g.dateDateMs.getD (g.dateTimestamp * 1000)
    startedAt := if isLive || isFinal then some (g.dateTimestamp * 1000) else none
    completedAt := if isFinal then some (g.dateTimestamp * 1000) else none
    venue := orEmptyNull g.venueName
    metadata := some (g.leagueName ++ ";" ++ g.leagueSeason) }

/-- Every right-hand side of the status mapping table is canonical. -/
theorem statusMapTable_canonical :
    ∀ p ∈ statusMapTable, canonicalStatuses.contains p.2 = true := by decide

/-- The normalized status is always one of the six canonical values. -/
theorem normalizeStatus_canonical (s : String) :
    canonicalStatuses.contains (normalizeStatus s) = true := by
  unfold normalizeStatus
  cases h : statusMapTable.find? (fun p => p.1 == s) with
  | none => decide
  | some p => exact statusMapTable_canonical p (List.mem_of_find?_eq_some h)

/-- C2: status normalization is total and deterministic — every raw provider
code maps to exactly one of the six canonical statuses; the in-progress
variants map to `live`, the finished variants (including technical loss,
walkover, penalties) to `final`, suspended/interrupted to `postponed`,
cancelled/abandoned to `cancelled`; a code absent from the mapping table
maps to `scheduled` (and, being a total function, the mapping never
throws); the adapter's transformation carries exactly this normalized
status. -/
theorem claim_C2_status_normalization :
    (∀ s, canonicalStatuses.contains (normalizeStatus s) = true)
    ∧ (∀ raw ∈ (["LIVE", "Q1", "Q2", "Q3", "Q4", "OT", "BT", "P"] : List String),
        normalizeStatus raw = "live")
    ∧ (∀ raw ∈ (["FT", "AET", "PEN", "AWD", "WO"] : List String),
        normalizeStatus raw = "final")
    ∧ (∀ raw ∈ (["SUSP", "INT"] : List String), normalizeStatus raw = "postponed")
    ∧ (∀ raw ∈ (["CANC", "ABD"] : List String), normalizeStatus raw = "cancelled")
    ∧ (∀ s, statusMapTable.find? (fun p => p.1 == s) = none →
        normalizeStatus s = "scheduled")
    ∧ (∀ g, (SportsAPIService.transformNFLGame g).status = normalizeStatus g.statusShort) := by
  refine ⟨normalizeStatus_canonical, by decide, by decide, by decide, by decide, ?_, fun g => rfl⟩
  intro s h
  unfold normalizeStatus
  rw [h]

/-- C2 witness: concrete evaluations — an in-progress quarter code
normalizes to `live`, and an unrecognized code normalizes to `scheduled`. -/
theorem claim_C2_status_normalization_witness :
    normalizeStatus "Q3" = "live" ∧ normalizeStatus "ZZZ" = "scheduled" :=
  ⟨claim_C2_status_normalization.2.1 "Q3" (by decide),
   claim_C2_status_normalization.2.2.2.2.2.1 "ZZZ" (by decide)⟩

/-- A finished (`FT`) game as the provider returns it. -/
def finishedRawGame : RawNFLGame :=
  { gameId := 101
    statusShort := "FT"
    statusLong := some "Finished"
    statusTimer := none
    dateTimestamp := 1700000000
    dateDateMs := none
    venueName := some "Lambeau Field"
    homeName := "Green Bay Packers"
    awayName := "Chicago Bears"
    homeLogo := none
    awayLogo := none
    homeTotal := some 24
    awayTotal := some 17
    leagueName := "NFL"
    leagueSeason := "2024" }

/-- C8 counterexample: for a finished game (`FT`, normalized status `final`,
which is neither `live` nor `halftime`), the transformation populates
`startedAt` — refuting the claim that `startedAt` is populated only when the
normalized status is `live` or `halftime`. -/
theorem claim_C8_counterexample :
    (SportsAPIService.transformNFLGame finishedRawGame).status = "final"
    ∧ (SportsAPIService.transformNFLGame finishedRawGame).status ∉
        (["live", "halftime"] : List String)
    ∧ (SportsAPIService.transformNFLGame finishedRawGame).startedAt = some 1700000000000 := by
  exact ⟨rfl, by decide, rfl⟩

/-- C8 amended: the transformation populates `startedAt` exactly when the
normalized status is `live`, `halftime` or `final`, and `completedAt`
exactly when it is `final`; in every other status both fields are null. -/
theorem claim_C8_amended (g : RawNFLGame) :
    ((SportsAPIService.transformNFLGame g).startedAt ≠ none ↔
      (SportsAPIService.transformNFLGame g).status ∈
        (["live", "halftime", "final"] : List String))
    ∧ ((SportsAPIService.transformNFLGame g).completedAt ≠ none ↔
      (SportsAPIService.transformNFLGame g).status = "final")
    ∧ ((SportsAPIService.transformNFLGame g).status ∉
        (["live", "halftime", "final"] : List String) →
      (SportsAPIService.transformNFLGame g).startedAt = none ∧
      (SportsAPIService.transformNFLGame g).completedAt = none) := by
  by_cases h1 : normalizeStatus g.statusShort = "live" <;>
    by_cases h2 : normalizeStatus g.statusShort = "halftime" <;>
    by_cases h3 : normalizeStatus g.statusShort = "final" <;>
    simp [SportsAPIService.transformNFLGame, h1, h2, h3]

/-- A postponed (`PST`) game as the provider returns it. -/
def postponedRawGame : RawNFLGame :=
  { gameId := 202
    statusShort := "PST"
    statusLong := some "Postponed"
    statusTimer := none
    dateTimestamp := 1700000000
    dateDateMs := none
    venueName := none
    homeName := "Dallas Cowboys"
    awayName := "Philadelphia Eagles"
    homeLogo := none
    awayLogo := none
    homeTotal := none
    awayTotal := none
    leagueName := "NFL"
    leagueSeason := "2024" }

/-- C8 amended witness: for a concrete postponed game, whose status is none
of `live`, `halftime`, `final`, both timing fields are null. -/
theorem claim_C8_amended_witness :
    (SportsAPIService.transformNFLGame postponedRawGame).startedAt = none
    ∧ (SportsAPIService.transformNFLGame postponedRawGame).completedAt = none :=
  (claim_C8_amended postponedRawGame).2.2 (by decide)

/-! ## The Score store (`src/backend/src/models/Score.js`)

The `scores` table is a `List GameRecord`; `CURRENT_TIMESTAMP` is an
explicit `now : Int` (milliseconds) parameter; SQL `ORDER BY` is an
insertion sort; a SQL comparison against a `NULL` column is false. -/

/-- One row of the `scores` table: the `ScoreData` fields plus the
store-managed `last_updated` and `created_at` columns. -/
structure GameRecord where
  gameId : String
  sportType : String
  homeTeam : String
  awayTeam : String
  homeTeamLogo : Option String
  awayTeamLogo : Option String
  homeScore : Nat
  awayScore : Nat
  status : String
  period : Option String
  timeRemaining : Option String
  scheduledAt : Int
  startedAt : Option Int
  completedAt : Option Int
  venue : Option String
  metadata : Option String
  lastUpdated : Int
  createdAt : Int
  deriving DecidableEq, Repr

/-- Stable insertion step for modelling SQL `ORDER BY`. -/
def insertSorted (le : α → α → Bool) (x : α) : List α → List α
  | [] => [x]
  | y :: ys => if le x y then x :: y :: ys else y :: insertSorted le x ys

/-- Stable insertion sort for modelling SQL `ORDER BY`. -/
def sortByKey (le : α → α → Bool) (l : List α) : List α :=
  l.foldr (insertSorted le) []

theorem mem_insertSorted (le : α → α → Bool) (x : α) (l : List α) (a : α) :
    a ∈ insertSorted le x l ↔ a = x ∨ a ∈ l := by
  induction l with
  | nil => simp [insertSorted]
  | cons y ys ih =>
      unfold insertSorted
      by_cases h : le x y = true
      · rw [if_pos h]
        simp
      · rw [if_neg h]
        simp only [List.mem_cons, ih]
        tauto

theorem mem_sortByKey (le : α → α → Bool) (l : List α) (a : α) :
    a ∈ sortByKey le l ↔ a ∈ l := by
  induction l with
  | nil => simp [sortByKey]
  | cons y ys ih =>
      simp [sortByKey, mem_insertSorted] at *
      tauto

/-- `Score.upsert`: `INSERT ... ON CONFLICT (game_id) DO UPDATE`.  The
conflict branch overwrites only `home_score`, `away_score`, `status`,
`period`, `time_remaining`, `started_at`, `completed_at`, `metadata` and
stamps `last_updated = CURRENT_TIMESTAMP`; the insert branch stores every
field and stamps both timestamps.  Nullable value coercions mirror the
source (`homeScore || 0` is the identity on a natural number, `period ||
null` is `orEmptyNull`, a `Date` object is always truthy so `startedAt ||
null` passes through).  Returns the new table and the `RETURNING` row. -/
def Score.upsert (store : List GameRecord) (d : ScoreData) (now : Int) :
    List GameRecord × GameRecord :=
  match store.find? (fun r => r.gameId == d.gameId) with
  | some old =>
      let updated : GameRecord :=
        { old with
          homeScore := d.homeScore
          awayScore := d.awayScore
          status := d.status
          period := orEmptyNull d.period
          timeRemaining := orEmptyNull d.timeRemaining
          startedAt := d.startedAt
          completedAt := d.completedAt
          metadata := d.metadata
          lastUpdated := now }
      (store.map (fun r => if r.gameId == d.gameId then updated else r), updated)
  | none =>
      let created : GameRecord :=
        { gameId := d.gameId
          sportType := d.sportType
          homeTeam := d.homeTeam
          awayTeam := d.awayTeam
          homeTeamLogo := d.homeTeamLogo
          awayTeamLogo := d.awayTeamLogo
          homeScore := d.homeScore
          awayScore := d.awayScore
          status := d.status
          period := orEmptyNull d.period
          timeRemaining := orEmptyNull d.timeRemaining
          scheduledAt := d.scheduledAt
          startedAt := d.startedAt
          completedAt := d.completedAt
          venue := orEmptyNull d.venue
          metadata := d.metadata
          lastUpdated := now
          createdAt := now }
      (store ++ [created], created)

/-- `Score.findLive`: `status = 'live'`, optional sport filter,
`ORDER BY scheduled_at ASC`. -/
def Score.findLive (store : List GameRecord) (sportType : Option String) :
    List GameRecord :=
  sortByKey (fun a b => decide (a.scheduledAt ≤ b.scheduledAt))
    (store.filter (fun r =>
      r.status == "live" &&
      match sportType with
      | some s => r.sportType == s
      | none => true))

/-- `Score.findByDateRange`: `sport_type = $1 AND scheduled_at >= $2 AND
scheduled_at <= $3 ORDER BY scheduled_at ASC`. -/
def Score.findByDateRange (store : List GameRecord) (sportType : String)
    (startDate endDate : Int) : List GameRecord :=
  sortByKey (fun a b => decide (a.scheduledAt ≤ b.scheduledAt))
    (store.filter (fun r =>
      r.sportType == sportType &&
      decide (startDate ≤ r.scheduledAt) && decide (r.scheduledAt ≤ endDate)))

/-- `Score.findUpcoming`: `status = 'scheduled' AND scheduled_at >
CURRENT_TIMESTAMP ORDER BY scheduled_at ASC LIMIT $2`. -/
def Score.findUpcoming (store : List GameRecord) (sportType : String)
    (limit : Nat) (now : Int) : List GameRecord :=
  (sortByKey (fun a b => decide (a.scheduledAt ≤ b.scheduledAt))
    (store.filter (fun r =>
      r.sportType == sportType && r.status == "scheduled" &&
      decide (now < r.scheduledAt)))).take limit

/-- `Score.findRecentlyCompleted`: `status = 'final' AND completed_at >=
CURRENT_TIMESTAMP - INTERVAL hours ORDER BY completed_at DESC LIMIT $2`
(false on a `NULL` `completed_at`). -/
def Score.findRecentlyCompleted (store : List GameRecord) (sportType : String)
    (hours : Int) (limit : Nat) (now : Int) : List GameRecord :=
  (sortByKey (fun a b => decide (b.completedAt.getD 0 ≤ a.completedAt.getD 0))
    (store.filter (fun r =>
      r.sportType == sportType && r.status == "final" &&
      match r.completedAt with
      | some t => decide (now - hours * 3600000 ≤ t)
      | none => false))).take limit

/-- The `WHERE` predicate of `Score.deleteOld`: `status = 'final' AND
completed_at < CURRENT_TIMESTAMP - INTERVAL days` (false on `NULL`). -/
def Score.deleteOldPred (days : Nat) (now : Int) (r : GameRecord) : Bool :=
  r.status == "final" &&
  match r.completedAt with
  | some t => decide (t < now - (days : Int) * 86400000)
  | none => false

/-- `Score.deleteOld`: `DELETE FROM scores WHERE status = 'final' AND
completed_at < CURRENT_TIMESTAMP - INTERVAL days`; returns the remaining
table and the `rowCount` of deleted rows. -/
def Score.deleteOld (store : List GameRecord) (days : Nat) (now : Int) :
    List GameRecord × Nat :=
  (store.filter (fun r => !(Score.deleteOldPred days now r)),
   (store.filter (Score.deleteOldPred days now)).length)

/-- The derived per-sport `CacheStatus` summary (the `getCacheStatus`
query's row). -/
structure CacheStatus where
  totalGames : Nat
  liveGames : Nat
  scheduledGames : Nat
  completedGames : Nat
  lastUpdate : Option Int
  deriving DecidableEq, Repr

/-- `Score.getCacheStatus`: counts by status plus `MAX(last_updated)` over
the sport's rows (`NULL`, i.e. `none`, over an empty set). -/
def Score.getCacheStatus (store : List GameRecord) (sportType : String) :
    CacheStatus :=
  let rows := store.filter (fun r => r.sportType == sportType)
  { totalGames := rows.length
    liveGames := (rows.filter (fun r => r.status == "live")).length
    scheduledGames := (rows.filter (fun r => r.status == "scheduled")).length
    completedGames := (rows.filter (fun r => r.status == "final")).length
    lastUpdate := (rows.map (fun r => r.lastUpdated)).max? }

theorem orEmptyNull_eq_self {o : Option String} (h : o ≠ some "") :
    orEmptyNull o = o := by
  cases o with
  | none => rfl
  | some s =>
      have he : orEmptyNull (some s) = if s = "" then none else some s := rfl
      rw [he, if_neg]
      intro hs
      exact h (by rw [hs])

theorem find?_of_filter_singleton {p : α → Bool} :
    ∀ {l : List α} {r : α}, l.filter p = [r] → l.find? p = some r := by
  intro l
  induction l with
  | nil => intro r h; simp at h
  | cons x xs ih =>
      intro r h
      rw [List.filter_cons] at h
      by_cases hx : p x = true
      · rw [if_pos hx] at h
        obtain ⟨h1, _⟩ := List.cons.inj h
        rw [List.find?_cons_of_pos _ hx, h1]
      · rw [if_neg hx] at h
        rw [List.find?_cons_of_neg _ (by simp [hx]), ih h]

theorem filter_map_update_nil {p : α → Bool} {u : α} :
    ∀ {l : List α}, l.filter p = [] →
      (l.map (fun x => if p x then u else x)).filter p = [] := by
  intro l
  induction l with
  | nil => intro _; simp
  | cons x xs ih =>
      intro h
      rw [List.filter_cons] at h
      by_cases hx : p x = true
      · rw [if_pos hx] at h
        exact absurd h (by simp)
      · rw [if_neg hx] at h
        simp only [List.map_cons, List.filter_cons, hx, if_neg, if_false]
        rw [if_neg (by simp [hx])]
        exact ih h

theorem filter_map_update {p : α → Bool} {u : α} (hu : p u = true) :
    ∀ {l : List α} {r : α}, l.filter p = [r] →
      (l.map (fun x => if p x then u else x)).filter p = [u] := by
  intro l
  induction l with
  | nil => intro r h; simp at h
  | cons x xs ih =>
      intro r h
      rw [List.filter_cons] at h
      by_cases hx : p x = true
      · rw [if_pos hx] at h
        obtain ⟨_, h2⟩ := List.cons.inj h
        rw [List.map_cons, if_pos hx, List.filter_cons, if_pos (by simpa using hu),
          filter_map_update_nil h2]
      · rw [if_neg hx] at h
        rw [List.map_cons, if_neg hx, List.filter_cons, if_neg (by simp [hx])]
        exact ih h

/-- C4: re-upserting an existing `gameId` leaves exactly one record for
that key — the returned row — carrying the new upsert's scores, status,
period, timeRemaining, startedAt, completedAt and metadata with
`lastUpdated` stamped to the current time, while `gameId`, `createdAt`,
team names and `scheduledAt` are unchanged from the stored record, and the
table size is unchanged.  (The `period`/`timeRemaining` hypotheses exclude
the empty string, which the source's `|| null` coercion would store as
null.) -/
theorem claim_C4_upsert_overwrite (store : List GameRecord) (d : ScoreData)
    (r : GameRecord) (now : Int)
    (hkey : store.filter (fun x => x.gameId == d.gameId) = [r])
    (hper : d.period ≠ some "") (htr : d.timeRemaining ≠ some "") :
    (Score.upsert store d now).1.filter (fun x => x.gameId == d.gameId)
        = [(Score.upsert store d now).2]
    ∧ (Score.upsert store d now).1.length = store.length
    ∧ (Score.upsert store d now).2.homeScore = d.homeScore
    ∧ (Score.upsert store d now).2.awayScore = d.awayScore
    ∧ (Score.upsert store d now).2.status = d.status
    ∧ (Score.upsert store d now).2.period = d.period
    ∧ (Score.upsert store d now).2.timeRemaining = d.timeRemaining
    ∧ (Score.upsert store d now).2.startedAt = d.startedAt
    ∧ (Score.upsert store d now).2.completedAt = d.completedAt
    ∧ (Score.upsert store d now).2.metadata = d.metadata
    ∧ (Score.upsert store d now).2.lastUpdated = now
    ∧ (Score.upsert store d now).2.gameId = r.gameId
    ∧ (Score.upsert store d now).2.createdAt = r.createdAt
    ∧ (Score.upsert store d now).2.homeTeam = r.homeTeam
    ∧ (Score.upsert store d now).2.awayTeam = r.awayTeam
    ∧ (Score.upsert store d now).2.scheduledAt = r.scheduledAt := by
  have hmem : r ∈ store.filter (fun x => x.gameId == d.gameId) := by
    rw [hkey]; exact List.mem_singleton_self r
  have hr0 := List.of_mem_filter hmem
  have hr : (r.gameId == d.gameId) = true := by simpa using hr0
  have hfind := find?_of_filter_singleton hkey
  have hupd : Score.upsert store d now =
      (store.map (fun x => if x.gameId == d.gameId then
          { r with
            homeScore := d.homeScore
            awayScore := d.awayScore
            status := d.status
            period := orEmptyNull d.period
            timeRemaining := orEmptyNull d.timeRemaining
            startedAt := d.startedAt
            completedAt := d.completedAt
            metadata := d.metadata
            lastUpdated := now }
        else x),
      { r with
        homeScore := d.homeScore
        awayScore := d.awayScore
        status := d.status
        period := orEmptyNull d.period
        timeRemaining := orEmptyNull d.timeRemaining
        startedAt := d.startedAt
        completedAt := d.completedAt
        metadata := d.metadata
        lastUpdated := now }) := by
    unfold Score.upsert
    rw [hfind]
  rw [hupd]
  refine ⟨filter_map_update (by simpa using hr) hkey, by simp, rfl, rfl, rfl,
    orEmptyNull_eq_self hper, orEmptyNull_eq_self htr, rfl, rfl, rfl, rfl, rfl,
    rfl, rfl, rfl, rfl⟩

/-- A stored football record for the C4 witness. -/
def c4Record : GameRecord :=
  { gameId := "g1"
    sportType := "football"
    homeTeam := "Dallas Cowboys"
    awayTeam := "Philadelphia Eagles"
    homeTeamLogo := none
    awayTeamLogo := none
    homeScore := 7
    awayScore := 3
    status := "live"
    period := some "1st Quarter"
    timeRemaining := some "12:34"
    scheduledAt := 1000
    startedAt := some 1000
    completedAt := none
    venue := none
    metadata := none
    lastUpdated := 1000
    createdAt := 1000 }

/-- A later upsert payload for the same `gameId` with different scores. -/
def c4Data : ScoreData :=
  { gameId := "g1"
    sportType := "football"
    homeTeam := "Dallas Cowboys"
    awayTeam := "Philadelphia Eagles"
    homeTeamLogo := none
    awayTeamLogo := none
    homeScore := 21
    awayScore := 17
    status := "final"
    period := some "Final"
    timeRemaining := none
    scheduledAt := 1000
    startedAt := some 1000
    completedAt := some 12000
    venue := none
    metadata := none }

/-- C4 witness: a concrete re-upsert leaves one record with the new scores
and the original `createdAt`. -/
theorem claim_C4_upsert_overwrite_witness :
    (Score.upsert [c4Record] c4Data 2000).1.filter (fun x => x.gameId == c4Data.gameId)
        = [(Score.upsert [c4Record] c4Data 2000).2]
    ∧ (Score.upsert [c4Record] c4Data 2000).2.homeScore = c4Data.homeScore
    ∧ (Score.upsert [c4Record] c4Data 2000).2.createdAt = c4Record.createdAt := by
  have h := claim_C4_upsert_overwrite [c4Record] c4Data c4Record 2000
    (by decide) (by decide) (by decide)
  exact ⟨h.1, h.2.2.1, by decide⟩

theorem deleteOldPred_iff (days : Nat) (now : Int) (r : GameRecord) :
    Score.deleteOldPred days now r = true ↔
      (r.status = "final" ∧
        ∃ t, r.completedAt = some t ∧ t < now - (days : Int) * 86400000) := by
  unfold Score.deleteOldPred
  cases h : r.completedAt with
  | none => simp [h]
  | some t => simp [h]

theorem length_filter_not_add (p : α → Bool) (l : List α) :
    (l.filter (fun a => !(p a))).length + (l.filter p).length = l.length := by
  induction l with
  | nil => rfl
  | cons x xs ih =>
      rw [List.filter_cons, List.filter_cons]
      cases hx : p x with
      | true =>
          rw [if_neg (by decide), if_pos (by decide)]
          simp only [List.length_cons]
          omega
      | false =>
          rw [if_pos (by decide), if_neg (by decide)]
          simp only [List.length_cons]
          omega

/-- C7: the retention sweep deletes exactly the `final` records whose
`completedAt` is older than `now - days`, returns the number deleted, and
never deletes a record of any other status regardless of age. -/
theorem claim_C7_retention_selectivity (store : List GameRecord) (days : Nat)
    (now : Int) :
    (∀ r, r ∈ (Score.deleteOld store days now).1 ↔
      (r ∈ store ∧ ¬(r.status = "final" ∧
        ∃ t, r.completedAt = some t ∧ t < now - (days : Int) * 86400000)))
    ∧ (Score.deleteOld store days now).2 =
        (store.filter (Score.deleteOldPred days now)).length
    ∧ (Score.deleteOld store days now).1.length + (Score.deleteOld store days now).2
        = store.length
    ∧ (∀ r ∈ store, r.status ≠ "final" → r ∈ (Score.deleteOld store days now).1) := by
  have hmem : ∀ r, r ∈ (Score.deleteOld store days now).1 ↔
      (r ∈ store ∧ ¬(r.status = "final" ∧
        ∃ t, r.completedAt = some t ∧ t < now - (days : Int) * 86400000)) := by
    intro r
    unfold Score.deleteOld
    rw [List.mem_filter]
    constructor
    · rintro ⟨h1, h2⟩
      refine ⟨h1, ?_⟩
      intro hc
      rw [Bool.not_eq_true', ← Bool.not_eq_true] at h2
      exact h2 ((deleteOldPred_iff days now r).mpr hc)
    · rintro ⟨h1, h2⟩
      refine ⟨h1, ?_⟩
      rw [Bool.not_eq_true', ← Bool.not_eq_true]
      intro hc
      exact h2 ((deleteOldPred_iff days now r).mp hc)
  refine ⟨hmem, rfl, length_filter_not_add _ _, ?_⟩
  intro r hr hstat
  exact (hmem r).mpr ⟨hr, fun hc => hstat hc.1⟩

/-- A live record scheduled 30 days in the past (relative to `now = 0`). -/
def c7LiveRecord : GameRecord :=
  { c4Record with
    gameId := "old-live"
    scheduledAt := -2592000000
    startedAt := some (-2592000000)
    lastUpdated := -2592000000
    createdAt := -2592000000 }

/-- A final record completed more than 7 days ago (relative to `now = 0`). -/
def c7OldFinal : GameRecord :=
  { c4Record with
    gameId := "old-final"
    status := "final"
    completedAt := some (-604800001)
    scheduledAt := -604900000 }

/-- C7 witness: with `deleteOlderThan(7)` at `now = 0`, the 30-day-old live
record survives and the stale final record is deleted. -/
theorem claim_C7_retention_selectivity_witness :
    c7LiveRecord ∈ (Score.deleteOld [c7LiveRecord, c7OldFinal] 7 0).1
    ∧ c7OldFinal ∉ (Score.deleteOld [c7LiveRecord, c7OldFinal] 7 0).1 := by
  have h := claim_C7_retention_selectivity [c7LiveRecord, c7OldFinal] 7 0
  constructor
  · exact h.2.2.2 c7LiveRecord (by simp) (by decide)
  · intro hin
    have hc := ((h.1 c7OldFinal).mp hin).2
    exact hc ⟨rfl, ⟨-604800001, rfl, by decide⟩⟩

/-! ## The Provider Adapter (`SportsAPIService`, `src/unnamed/part_006`)

`Math.random()` draws are explicit `ℚ` parameters in `[0, 1)`; the outcome
of the one external HTTP request a call makes is an
`Except String ApiResponse` parameter (`Except.error` models a thrown
network/timeout/HTTP error). -/

/-- A team entry of `_getTeamsBySport`. -/
structure TeamInfo where
  name : String
  city : String
  league : String
  logo : String
  deriving DecidableEq, Repr

/-- The NFL slate of `_getTeamsBySport` (also the `|| teams.football`
default for an unknown sport). -/
def footballTeams : List TeamInfo :=
  [{ name := "Dallas Cowboys", city := "Dallas", league := "NFL", logo := "/logos/cowboys.png" },
   { name := "Philadelphia Eagles", city := "Philadelphia", league := "NFL", logo := "/logos/eagles.png" },
   { name := "New England Patriots", city := "New England", league := "NFL", logo := "/logos/patriots.png" },
   { name := "Green Bay Packers", city := "Green Bay", league := "NFL", logo := "/logos/packers.png" },
   { name := "Kansas City Chiefs", city := "Kansas City", league := "NFL", logo := "/logos/chiefs.png" }]

def basketballTeams : List TeamInfo :=
  [{ name := "Los Angeles Lakers", city := "Los Angeles", league := "NBA", logo := "/logos/lakers.png" },
   { name := "Boston Celtics", city := "Boston", league := "NBA", logo := "/logos/celtics.png" },
   { name := "Golden State Warriors", city := "Golden State", league := "NBA", logo := "/logos/warriors.png" },
   { name := "Chicago Bulls", city := "Chicago", league := "NBA", logo := "/logos/bulls.png" },
   { name := "Miami Heat", city := "Miami", league := "NBA", logo := "/logos/heat.png" }]

def baseballTeams : List TeamInfo :=
  [{ name := "New York Yankees", city := "New York", league := "MLB", logo := "/logos/yankees.png" },
   { name := "Boston Red Sox", city := "Boston", league := "MLB", logo := "/logos/redsox.png" },
   { name := "Los Angeles Dodgers", city := "Los Angeles", league := "MLB", logo := "/logos/dodgers.png" },
   { name := "Chicago Cubs", city := "Chicago", league := "MLB", logo := "/logos/cubs.png" },
   { name := "San Francisco Giants", city := "San Francisco", league := "MLB", logo := "/logos/giants.png" }]

def soccerTeams : List TeamInfo :=
  [{ name := "Real Madrid", city := "Madrid", league := "La Liga", logo := "/logos/realmadrid.png" },
   { name := "Barcelona", city := "Barcelona", league := "La Liga", logo := "/logos/barcelona.png" },
   { name := "Manchester United", city := "Manchester", league := "Premier League", logo := "/logos/manutd.png" },
   { name := "Liverpool", city := "Liverpool", league := "Premier League", logo := "/logos/liverpool.png" },
   { name := "Bayern Munich", city := "Munich", league := "Bundesliga", logo := "/logos/bayern.png" }]

def hockeyTeams : List TeamInfo :=
  [{ name := "Montreal Canadiens", city := "Montreal", league := "NHL", logo := "/logos/canadiens.png" },
   { name := "Toronto Maple Leafs", city := "Toronto", league := "NHL", logo := "/logos/mapleleafs.png" },
   { name := "Boston Bruins", city := "Boston", league := "NHL", logo := "/logos/bruins.png" },
   { name := "Chicago Blackhawks", city := "Chicago", league := "NHL", logo := "/logos/blackhawks.png" },
   { name := "Detroit Red Wings", city := "Detroit", league := "NHL", logo := "/logos/redwings.png" }]

/-- The `teams` lookup object of `_getTeamsBySport`. -/
def teamsTable : List (String × List TeamInfo) :=
  [("football", footballTeams),
   ("basketball", basketballTeams),
   ("baseball", baseballTeams),
   ("soccer", soccerTeams),
   ("hockey", hockeyTeams)]

/-- `_getTeamsBySport`: `teams[sportType] || teams.football`. -/
def SportsAPIService.getTeamsBySport (sportType : String) : List TeamInfo :=
  match teamsTable.find? (fun p => p.1 == sportType) with
  | some p => p.2
  | none => footballTeams

/-- The NFL period names (also the `|| periods.football` default). -/
def footballPeriods : List String :=
  ["1st Quarter", "2nd Quarter", "3rd Quarter", "4th Quarter"]

/-- The `periods` lookup object of `_getPeriodBySport`. -/
def periodsTable : List (String × List String) :=
  [("football", footballPeriods),
   ("basketball", footballPeriods),
   ("baseball", ["1st Inning", "5th Inning", "9th Inning"]),
   ("soccer", ["1st Half", "2nd Half"]),
   ("hockey", ["1st Period", "2nd Period", "3rd Period"])]

/-- `_getPeriodBySport`: fixed text for `scheduled` / `halftime` / `final`,
otherwise a uniformly drawn per-sport period name (`none` models the
out-of-range `undefined`, unreachable for a draw in `[0,1)`). -/
def SportsAPIService.getPeriodBySport (sportType status : String) (r : ℚ) :
    Option String :=
  if status == "scheduled" then none
  else if status == "halftime" then some "Halftime"
  else if status == "final" then some "Final"
  else
    let sportPeriods :=
      match periodsTable.find? (fun p => p.1 == sportType) with
      | some p => p.2
      | none => footballPeriods
    sportPeriods.get? (⌊r * sportPeriods.length⌋).toNat

/-- `_randomStatus`: the weighted pick over
`['scheduled','live','halftime','final']` with weights `[0.3,0.3,0.1,0.3]`,
the accumulation loop unrolled; the trailing `live` is the source's
unreachable fallback `return 'live'`. -/
def SportsAPIService.randomStatus (r : ℚ) : String :=
  if r ≤ 3/10 then "scheduled"
  else if r ≤ 6/10 then "live"
  else if r ≤ 7/10 then "halftime"
  else if r ≤ 1 then "final"
  else "live"

/-- The `Math.random()` draws one mock game consumes.  `awayIdx` models the
index produced by the source's rejection-sampling `while` loop (redraw
until different from `homeIndex`) by its accepted value; the loop
additionally guarantees it differs from the home index, which no claim
needs. -/
structure MockPick where
  homeR : ℚ
  awayIdx : Nat
  statusR : ℚ
  homeScoreR : ℚ
  awayScoreR : ℚ
  periodR : ℚ
  deriving DecidableEq, Repr

/-- Range constraints for one game's draws (every team list has 5 teams). -/
def MockPick.Valid (p : MockPick) : Prop :=
  0 ≤ p.homeR ∧ p.homeR < 1 ∧ p.awayIdx < 5 ∧ 0 ≤ p.statusR ∧ p.statusR < 1 ∧
  0 ≤ p.homeScoreR ∧ p.homeScoreR < 1 ∧ 0 ≤ p.awayScoreR ∧ p.awayScoreR < 1 ∧
  0 ≤ p.periodR ∧ p.periodR < 1

/-- The draws one `_generateMockGames` call consumes: the game-count draw
plus one `MockPick` per game index. -/
structure MockRand where
  countR : ℚ
  picks : Nat → MockPick

/-- All draws lie in `[0, 1)` (what `Math.random()` guarantees). -/
def MockRand.Valid (m : MockRand) : Prop :=
  0 ≤ m.countR ∧ m.countR < 1 ∧ ∀ i, (m.picks i).Valid

/-- Start of the calendar day containing `t` (modelled in UTC):
what `setHours(h, 0, 0, 0)` resets to before adding `h` hours. -/
def dayStart (t : Int) : Int := t - t % 86400000

/-- The mock game id `` `${sportType}_${date}_${i}` ``; the ISO `YYYY-MM-DD`
date text is modelled by the numeric day start. -/
def mockGameId (sportType : String) (dateMs : Int) (i : Nat) : String :=
  sportType ++ "_" ++ toString (dayStart dateMs) ++ "_" ++ toString i

/-- Stands for a JS `undefined` member access on an out-of-range team
index; unreachable for in-range draws. -/
def defaultTeam : TeamInfo := { name := "", city := "", league := "", logo := "" }

/-- `_generateMockGames`: `Math.floor(Math.random()*3)+3` games (3 to 5);
per game: random home/away teams, status `scheduled` when
`defaultStatus === 'scheduled'` and a weighted random status otherwise,
scores 0 for a scheduled game and `Math.floor(Math.random()*35)` otherwise,
kickoff at `12 + i*2` hours on the given day, `startedAt` for any
non-scheduled status, `completedAt` three hours after kickoff for a final
game.  `metadata` (`{league, season: '2024'}`) is kept serialized. -/
def SportsAPIService.generateMockGames (rand : MockRand) (sportType : String)
    (dateMs : Int) (defaultStatus : String) : List ScoreData :=
  let teams := SportsAPIService.getTeamsBySport sportType
  let gameCount := (⌊rand.countR * 3⌋ + 3).toNat
  (List.range gameCount).map (fun i =>
    let pick := rand.picks i
    let homeIndex := (⌊pick.homeR * teams.length⌋).toNat
    let awayIndex := pick.awayIdx
    let status := if defaultStatus == "scheduled" then "scheduled"
      else SportsAPIService.randomStatus pick.statusR
    let homeScore := if status == "scheduled" then 0 else (⌊pick.homeScoreR * 35⌋).toNat
    let awayScore := if status == "scheduled" then 0 else (⌊pick.awayScoreR * 35⌋).toNat
    let scheduledTime := dayStart dateMs + (12 + 2 * (i : Int)) * 3600000
    let home := teams.getD homeIndex defaultTeam
    let away := teams.getD awayIndex defaultTeam
    { gameId := mockGameId sportType dateMs i
      sportType := sportType
      homeTeam := home.name
      awayTeam := away.name
      homeTeamLogo := some home.logo
      awayTeamLogo := some away.logo
      homeScore := homeScore
      awayScore := awayScore
      status := status
      period := SportsAPIService.getPeriodBySport sportType status pick.periodR
      timeRemaining := if status == "live" then some "12:34" else none
      scheduledAt := scheduledTime
      startedAt := if status != "scheduled" then some scheduledTime else none
      completedAt := if status == "final" then some (scheduledTime + 3 * 3600000) else none
      venue := some (home.city ++ " Stadium")
      metadata := some (home.league ++ ";2024") })

/-- Provider configuration: `USE_REAL_API === 'true'` and presence of
`API_SPORTS_KEY`. -/
structure ApiConfig where
  useRealApi : Bool
  hasApiKey : Bool
  deriving DecidableEq, Repr

/-- The relevant shape of an API Sports response body: `hasErrors` models
`response.data.errors` being non-empty, `planLimited` models its
serialized text containing `Free plans`. -/
structure ApiResponse where
  hasErrors : Bool
  planLimited : Bool
  response : List RawNFLGame
  deriving DecidableEq, Repr

/-- `_fetchNFLGamesFromAPI`, given the outcome of the HTTP request
(`Except.error` for a thrown network failure, timeout or HTTP error
status).  A plan-limitation error in the body is rethrown; an empty
response list returns `[]`; otherwise each game is transformed.  The
source adds the requested status filter to the request only when it is
neither `all` nor `scheduled`; for the calls modelled here (`all` and
`scheduled`) no filter is sent, so the oracle `api` carries whatever the
provider returned for the date, in any game state. -/
def SportsAPIService.fetchNFLGamesFromAPI (api : Except String ApiResponse) :
    Except String (List ScoreData) :=
  match api with
  | .error e => .error e
  | .ok resp =>
      if resp.hasErrors && resp.planLimited then
        .error "API Sports plan limitation"
      else if resp.response.isEmpty then .ok []
      else .ok (resp.response.map SportsAPIService.transformNFLGame)

/-- `fetchLiveScores`: the real NFL source is used only for `football` with
the feature flag on and a key configured, and any error from it is caught
and replaced by mock data; every other sport gets mock data directly.
The function is total — no error escapes to the caller. -/
def SportsAPIService.fetchLiveScores (cfg : ApiConfig)
    (api : Except String ApiResponse) (rand : MockRand)
    (sportType : String) (dateMs : Int) : List ScoreData :=
  if cfg.useRealApi && sportType == "football" && cfg.hasApiKey then
    match SportsAPIService.fetchNFLGamesFromAPI api with
    | .ok games => games
    | .error _ => SportsAPIService.generateMockGames rand sportType dateMs "live"
  else SportsAPIService.generateMockGames rand sportType dateMs "live"

/-- `fetchUpcomingGames`: the real-API path for football returns the
transformed response unchanged (the `scheduled` filter is never sent and
no post-filtering happens); on a caught error, and on the mock-only path,
one mock slate per day over the next `days` days, each forced to
`scheduled`. -/
def SportsAPIService.fetchUpcomingGames (cfg : ApiConfig)
    (api : Except String ApiResponse) (randForDay : Nat → MockRand)
    (sportType : String) (nowMs : Int) (days : Nat) : List ScoreData :=
  let mock := (List.range days).flatMap (fun i =>
    SportsAPIService.generateMockGames (randForDay i) sportType
      (nowMs + (i : Int) * 86400000) "scheduled")
  if cfg.useRealApi && sportType == "football" && cfg.hasApiKey then
    match SportsAPIService.fetchNFLGamesFromAPI api with
    | .ok games => games
    | .error _ => mock
  else mock

/-! ## The Cache Orchestrator (`ScoreService`, `src/unnamed/part_004`)

The adapter dependency is a function `fetch : String → Except String
(List ScoreData)` (the orchestrator is written against the adapter
interface, whose calls can throw); instantiating `fetch` with the concrete
total `SportsAPIService.fetchLiveScores` wrapped in `.ok` recovers this
repository's wiring. -/

/-- The default cache TTL in seconds (`CACHE_TTL`, 5 minutes). -/
def defaultCacheTTL : Int := 300

/-- The fixed sport set iterated by `refreshAllScores` and
`getCacheStatistics`. -/
def ScoreService.sports : List String :=
  ["football", "basketball", "baseball", "soccer", "hockey"]

/-- The staleness test of `getLiveScores`: `cacheAge > CACHE_TTL` where
`cacheAge = (Date.now() - lastUpdate) / 1000` seconds, `Infinity` when the
sport has no record (`Infinity > CACHE_TTL` is true). -/
def cacheAgeStale (lastUpdate : Option Int) (now ttl : Int) : Bool :=
  match lastUpdate with
  | none => true
  | some t => decide ((ttl : ℚ) < ((now : ℚ) - (t : ℚ)) / 1000)

/-- `Math.floor(cacheAge)` in seconds; `none` models the `Infinity` of a
sport with no record. -/
def cacheAgeFloor (lastUpdate : Option Int) (now : Int) : Option Int :=
  lastUpdate.map (fun t => (now - t).fdiv 1000)

/-- `ScoreService.refreshScores` for one sport, given the adapter call's
outcome: on success every returned record is upserted, counting them; the
`catch` block logs and rethrows, so an adapter error surfaces unchanged. -/
def ScoreService.refreshScores (fetchResult : Except String (List ScoreData))
    (now : Int) (store : List GameRecord) :
    Except String (List GameRecord × Nat) :=
  match fetchResult with
  | .error e => .error e
  | .ok scores =>
      .ok (scores.foldl (fun st s => (Score.upsert st s now).1) store, scores.length)

/-- `ScoreService.refreshAllScores`: sequential `refreshScores` over the
fixed sport set; a failure for one sport is caught and recorded as 0 and
the remaining sports still run.  Returns the final store and the
`{sport: count}` result map, as an ordered association list. -/
def ScoreService.refreshAllScores (fetch : String → Except String (List ScoreData))
    (now : Int) (store : List GameRecord) :
    List GameRecord × List (String × Nat) :=
  ScoreService.sports.foldl
    (fun acc sport =>
      match ScoreService.refreshScores (fetch sport) now acc.1 with
      | .ok (st, n) => (st, acc.2 ++ [(sport, n)])
      | .error _ => (acc.1, acc.2 ++ [(sport, 0)]))
    (store, [])

/-- The result object of `getLiveScores`. -/
structure LiveScoresResult where
  live : List GameRecord
  upcoming : List GameRecord
  recent : List GameRecord
  cacheAge : Option Int
  lastUpdate : Option Int
  deriving DecidableEq, Repr

/-- The read-and-package tail of `getLiveScores` (after the optional
refresh): live games, next 5 upcoming and last-24h recently completed
games from the store, plus cache-age metadata computed from the
pre-refresh cache status. -/
def ScoreService.liveScoresResult (store : List GameRecord) (sportType : String)
    (cs : CacheStatus) (now : Int) : LiveScoresResult :=
  { live := Score.findLive store (some sportType)
    upcoming := Score.findUpcoming store sportType 5 now
    recent := Score.findRecentlyCompleted store sportType 24 5 now
    cacheAge := cacheAgeFloor cs.lastUpdate now
    lastUpdate := cs.lastUpdate }

/-- `ScoreService.getLiveScores`: validate the sport, read the cache
status, refresh through the Adapter when forced or stale, then serve from
the store.  The `Nat` component instruments the number of Adapter fetches
the call performed: the single fetch inside `refreshScores` when the
refresh path is taken, none otherwise. -/
def ScoreService.getLiveScores (fetch : String → Except String (List ScoreData))
    (ttl : Int) (sportType : String) (forceRefresh : Bool) (now : Int)
    (store : List GameRecord) :
    Except String (List GameRecord × LiveScoresResult) × Nat :=
  if !(validSports.contains sportType) then (.error "Invalid sport type", 0)
  else
    let cs := Score.getCacheStatus store sportType
    if forceRefresh || cacheAgeStale cs.lastUpdate now ttl then
      match ScoreService.refreshScores (fetch sportType) now store with
      | .error e => (.error e, 1)
      | .ok (store1, _) =>
          (.ok (store1, ScoreService.liveScoresResult store1 sportType cs now), 1)
    else (.ok (store, ScoreService.liveScoresResult store sportType cs now), 0)

/-- `ScoreService.getScoresByDateRange`: reject an inverted range, reject a
range over 7 days (`(endDate - startDate) / (1000*60*60*24) > 7`),
otherwise a store-only read — no adapter is involved anywhere in it. -/
def ScoreService.getScoresByDateRange (store : List GameRecord)
    (sportType : String) (startDate endDate : Int) :
    Except String (List GameRecord) :=
  if startDate > endDate then .error "Start date must be before end date"
  else if ((endDate : ℚ) - (startDate : ℚ)) / 86400000 > 7 then
    .error "Date range cannot exceed 7 days"
  else .ok (Score.findByDateRange store sportType startDate endDate)

/-- `ScoreService.getCacheStatistics`: the per-sport cache status over the
fixed sport set, as an ordered association list. -/
def ScoreService.getCacheStatistics (store : List GameRecord) :
    List (String × CacheStatus) :=
  ScoreService.sports.map (fun sport => (sport, Score.getCacheStatus store sport))

/-! ## Claims about the Provider Adapter fallback (C3) and upcoming games (C9) -/

/-- Schema validity of an adapter-produced record, per the `GameRecord`
data model (§3): a canonical status, zero scores for a not-yet-started
game, and `completedAt` present exactly for a final game. -/
def schemaOk (d : ScoreData) : Bool :=
  canonicalStatuses.contains d.status
  && (if d.status == "scheduled" then d.homeScore == 0 && d.awayScore == 0 else true)
  && (if d.status == "final" then d.completedAt.isSome else d.completedAt == none)

theorem randomStatus_cases (r : ℚ) :
    SportsAPIService.randomStatus r = "scheduled"
    ∨ SportsAPIService.randomStatus r = "live"
    ∨ SportsAPIService.randomStatus r = "halftime"
    ∨ SportsAPIService.randomStatus r = "final" := by
  unfold SportsAPIService.randomStatus
  split_ifs <;> simp

theorem generateMockGames_length (rand : MockRand) (sportType : String)
    (dateMs : Int) (defaultStatus : String) :
    (SportsAPIService.generateMockGames rand sportType dateMs defaultStatus).length
      = (⌊rand.countR * 3⌋ + 3).toNat := by
  simp [SportsAPIService.generateMockGames]

theorem generateMockGames_ne_nil (rand : MockRand) (sportType : String)
    (dateMs : Int) (defaultStatus : String) (h : 0 ≤ rand.countR) :
    SportsAPIService.generateMockGames rand sportType dateMs defaultStatus ≠ [] := by
  intro hnil
  have hlen := congrArg List.length hnil
  rw [generateMockGames_length] at hlen
  simp only [List.length_nil] at hlen
  have h3 : (0 : Int) ≤ ⌊rand.countR * 3⌋ :=
    Int.floor_nonneg.mpr (mul_nonneg h (by norm_num))
  omega

/-- What one membership in a mock slate yields: the game index, the status
rule, the zero-scores-when-scheduled rule, the kickoff time and the
completion time. -/
theorem generateMockGames_mem_facts (rand : MockRand) (sportType : String)
    (dateMs : Int) (defaultStatus : String) (x : ScoreData)
    (hx : x ∈ SportsAPIService.generateMockGames rand sportType dateMs defaultStatus) :
    ∃ i : Nat, (i : Int) < ⌊rand.countR * 3⌋ + 3
      ∧ x.status = (if defaultStatus == "scheduled" then "scheduled"
          else SportsAPIService.randomStatus (rand.picks i).statusR)
      ∧ x.homeScore = (if x.status == "scheduled" then 0
          else (⌊(rand.picks i).homeScoreR * 35⌋).toNat)
      ∧ x.awayScore = (if x.status == "scheduled" then 0
          else (⌊(rand.picks i).awayScoreR * 35⌋).toNat)
      ∧ x.scheduledAt = dayStart dateMs + (12 + 2 * (i : Int)) * 3600000
      ∧ x.completedAt = (if x.status == "final"
          then some (x.scheduledAt + 3 * 3600000) else none) := by
  unfold SportsAPIService.generateMockGames at hx
  simp only [List.mem_map, List.mem_range] at hx
  obtain ⟨i, hi, hxeq⟩ := hx
  subst hxeq
  refine ⟨i, by omega, rfl, rfl, rfl, rfl, rfl⟩

theorem generateMockGames_schemaOk (rand : MockRand) (sportType : String)
    (dateMs : Int) (defaultStatus : String) (x : ScoreData)
    (hx : x ∈ SportsAPIService.generateMockGames rand sportType dateMs defaultStatus) :
    schemaOk x = true := by
  obtain ⟨i, _, hstat, hhs, has, _, hcomp⟩ :=
    generateMockGames_mem_facts rand sportType dateMs defaultStatus x hx
  have h1 : canonicalStatuses.contains x.status = true := by
    rw [hstat]
    by_cases h : (defaultStatus == "scheduled") = true
    · rw [if_pos h]; decide
    · rw [if_neg h]
      rcases randomStatus_cases (rand.picks i).statusR with h' | h' | h' | h' <;>
        rw [h'] <;> decide
  have h2 : (if x.status == "scheduled"
      then x.homeScore == 0 && x.awayScore == 0 else true) = true := by
    by_cases hs : (x.status == "scheduled") = true
    · rw [if_pos hs, hhs, if_pos hs, has, if_pos hs]
      decide
    · rw [if_neg hs]
  have h3 : (if x.status == "final"
      then x.completedAt.isSome else x.completedAt == none) = true := by
    by_cases hf : (x.status == "final") = true
    · rw [if_pos hf, hcomp, if_pos hf]
      rfl
    · rw [if_neg hf, hcomp, if_neg hf]
      rfl
  unfold schemaOk
  rw [h1, h2, h3]
  rfl

/-- When every adapter outcome the orchestrator sees is a success,
`getLiveScores` on a valid sport returns a success. -/
theorem getLiveScores_ok_of_fetch_ok (fetch : String → Except String (List ScoreData))
    (h : ∀ sp, ∃ l, fetch sp = .ok l) (ttl : Int) (sportType : String)
    (force : Bool) (now : Int) (store : List GameRecord)
    (hv : validSports.contains sportType = true) :
    ((ScoreService.getLiveScores fetch ttl sportType force now store).1).isOk = true := by
  unfold ScoreService.getLiveScores
  rw [if_neg (show ¬((!validSports.contains sportType) = true) by rw [hv]; decide)]
  by_cases hc : (force || cacheAgeStale
      (Score.getCacheStatus store sportType).lastUpdate now ttl) = true
  · rw [if_pos hc]
    obtain ⟨l, hl⟩ := h sportType
    rw [hl]
    rfl
  · rw [if_neg hc]
    rfl

/-- C3: if the adapter's live-source call throws (network failure,
timeout, HTTP error or plan restriction), `fetchLiveScores` still returns
the synthetic mock slate — a non-empty, schema-valid array — and, the
concrete adapter being total, no provider error ever reaches
`getLiveScores` (in particular not on the implicit stale-refresh path). -/
theorem claim_C3_fallback_transparency (cfg : ApiConfig)
    (api : Except String ApiResponse) (rand : MockRand) (sportType : String)
    (dateMs : Int) (e : String)
    (herr : SportsAPIService.fetchNFLGamesFromAPI api = .error e)
    (hcnt : 0 ≤ rand.countR) :
    SportsAPIService.fetchLiveScores cfg api rand sportType dateMs
        = SportsAPIService.generateMockGames rand sportType dateMs "live"
    ∧ SportsAPIService.fetchLiveScores cfg api rand sportType dateMs ≠ []
    ∧ (∀ x ∈ SportsAPIService.fetchLiveScores cfg api rand sportType dateMs,
        schemaOk x = true)
    ∧ (∀ ttl force now store sp, validSports.contains sp = true →
        ((ScoreService.getLiveScores
            (fun s => .ok (SportsAPIService.fetchLiveScores cfg api rand s dateMs))
            ttl sp force now store).1).isOk = true) := by
  have hmock : SportsAPIService.fetchLiveScores cfg api rand sportType dateMs
      = SportsAPIService.generateMockGames rand sportType dateMs "live" := by
    unfold SportsAPIService.fetchLiveScores
    by_cases h : (cfg.useRealApi && sportType == "football" && cfg.hasApiKey) = true
    · rw [if_pos h, herr]
    · rw [if_neg h]
  refine ⟨hmock, ?_, ?_, ?_⟩
  · rw [hmock]
    exact generateMockGames_ne_nil rand sportType dateMs "live" hcnt
  · intro x hx
    rw [hmock] at hx
    exact generateMockGames_schemaOk rand sportType dateMs "live" x hx
  · intro ttl force now store sp hv
    exact getLiveScores_ok_of_fetch_ok _ (fun s => ⟨_, rfl⟩) ttl sp force now store hv

/-- A fixed in-range draw for every `Math.random()` call site. -/
def mockPick0 : MockPick :=
  { homeR := 1/2, awayIdx := 1, statusR := 1/2, homeScoreR := 1/2,
    awayScoreR := 1/2, periodR := 1/2 }

/-- A fixed mock randomness supply (every draw is one half). -/
def mockRand0 : MockRand := { countR := 1/2, picks := fun _ => mockPick0 }

/-- C3 witness: with the real API enabled for football and the HTTP call
throwing a timeout, the adapter still yields a non-empty slate and
`getLiveScores` succeeds. -/
theorem claim_C3_fallback_transparency_witness :
    SportsAPIService.fetchLiveScores ⟨true, true⟩ (.error "timeout") mockRand0 "football" 0 ≠ []
    ∧ ((ScoreService.getLiveScores
        (fun s => .ok (SportsAPIService.fetchLiveScores ⟨true, true⟩ (.error "timeout") mockRand0 s 0))
        300 "football" false 0 []).1).isOk = true := by
  have h := claim_C3_fallback_transparency ⟨true, true⟩ (.error "timeout") mockRand0
    "football" 0 "timeout" rfl (by norm_num [mockRand0])
  exact ⟨h.2.1, h.2.2.2 300 false 0 [] "football" (by decide)⟩

/-- A live first-quarter game as the provider returns it. -/
def liveRawGame : RawNFLGame :=
  { gameId := 303
    statusShort := "Q1"
    statusLong := some "First Quarter"
    statusTimer := some "10:21"
    dateTimestamp := 1700000000
    dateDateMs := none
    venueName := none
    homeName := "Kansas City Chiefs"
    awayName := "Green Bay Packers"
    homeLogo := none
    awayLogo := none
    homeTotal := some 14
    awayTotal := some 7
    leagueName := "NFL"
    leagueSeason := "2024" }

/-- C9 counterexample: on the real-API football path (`USE_REAL_API` on,
key configured) with the provider returning a live game for the request
date, `fetchUpcomingGames` returns that game unchanged — status `live`
and a non-zero score, not `scheduled` with zero scores — because the
`scheduled` filter is never sent to the API and no post-filter is
applied. -/
theorem claim_C9_counterexample :
    (SportsAPIService.fetchUpcomingGames ⟨true, true⟩
        (.ok { hasErrors := false, planLimited := false, response := [liveRawGame] })
        (fun _ => mockRand0) "football" 0 7).map (fun d => (d.status, d.homeScore))
      = [("live", 14)] := by
  rfl

theorem dayStart_add_days (t : Int) (i : Nat) :
    dayStart (t + (i : Int) * 86400000) = dayStart t + (i : Int) * 86400000 := by
  unfold dayStart
  rw [Int.add_mul_emod_self]
  ring

/-- C9 amended: on every path that serves synthetic data — the mock-only
configuration or a caught real-API error — every record returned by
`fetchUpcomingGames(sportType, days)` has status `scheduled` with zero
scores and a kickoff inside the `days` calendar days starting at the
current day; on the real-API success path records keep their
provider-transformed statuses and scores. -/
theorem claim_C9_amended (cfg : ApiConfig) (api : Except String ApiResponse)
    (randForDay : Nat → MockRand) (sportType : String) (nowMs : Int) (days : Nat)
    (hpath : (cfg.useRealApi && sportType == "football" && cfg.hasApiKey) = false
      ∨ ∃ e, SportsAPIService.fetchNFLGamesFromAPI api = .error e)
    (hrand : ∀ i, 0 ≤ (randForDay i).countR ∧ (randForDay i).countR < 1) :
    ∀ x ∈ SportsAPIService.fetchUpcomingGames cfg api randForDay sportType nowMs days,
      x.status = "scheduled" ∧ x.homeScore = 0 ∧ x.awayScore = 0
      ∧ dayStart nowMs ≤ x.scheduledAt
      ∧ x.scheduledAt < dayStart nowMs + (days : Int) * 86400000 := by
  have hmockeq : SportsAPIService.fetchUpcomingGames cfg api randForDay sportType nowMs days
      = (List.range days).flatMap (fun i =>
          SportsAPIService.generateMockGames (randForDay i) sportType
            (nowMs + (i : Int) * 86400000) "scheduled") := by
    unfold SportsAPIService.fetchUpcomingGames
    rcases hpath with h | ⟨e, he⟩
    · rw [if_neg (by rw [h]; decide)]
    · by_cases h : (cfg.useRealApi && sportType == "football" && cfg.hasApiKey) = true
      · rw [if_pos h, he]
      · rw [if_neg h]
  intro x hx
  rw [hmockeq] at hx
  rw [List.mem_flatMap] at hx
  obtain ⟨i, hi, hxi⟩ := hx
  rw [List.mem_range] at hi
  obtain ⟨j, hj, hstat, hhs, has, hsched, _⟩ :=
    generateMockGames_mem_facts (randForDay i) sportType
      (nowMs + (i : Int) * 86400000) "scheduled" x hxi
  have hstat' : x.status = "scheduled" := by
    rw [hstat, if_pos (by decide)]
  have hsch : (x.status == "scheduled") = true := by rw [hstat']; decide
  refine ⟨hstat', by rw [hhs, if_pos hsch], by rw [has, if_pos hsch], ?_, ?_⟩
  · rw [hsched, dayStart_add_days]
    have : (0 : Int) ≤ (i : Int) * 86400000 := by positivity
    omega
  · rw [hsched, dayStart_add_days]
    have hcnt : ⌊(randForDay i).countR * 3⌋ < 3 := by
      rw [Int.floor_lt]
      push_cast
      nlinarith [(hrand i).1, (hrand i).2]
    have hj5 : (j : Int) ≤ 4 := by omega
    have hi0 : (i : Int) < (days : Int) := by exact_mod_cast hi
    have hi' : (i : Int) ≤ (days : Int) - 1 := by omega
    nlinarith [hj5, hi']

/-- A throwaway default for `headD` below. -/
def emptyScoreData : ScoreData :=
  { gameId := "", sportType := "", homeTeam := "", awayTeam := ""
    homeTeamLogo := none, awayTeamLogo := none, homeScore := 0, awayScore := 0
    status := "", period := none, timeRemaining := none, scheduledAt := 0
    startedAt := none, completedAt := none, venue := none, metadata := none }

/-- A concrete mock-path upcoming slate (2 days of soccer). -/
def c9WitnessSlate : List ScoreData :=
  SportsAPIService.fetchUpcomingGames ⟨false, false⟩
    (.ok { hasErrors := false, planLimited := false, response := [] })
    (fun _ => mockRand0) "soccer" 0 2

/-- The first record of that slate. -/
def c9WitnessGame : ScoreData := c9WitnessSlate.headD emptyScoreData

theorem headD_mem {l : List α} {d : α} (h : l ≠ []) : l.headD d ∈ l := by
  cases l with
  | nil => exact absurd rfl h
  | cons x xs => simp [List.headD]

theorem c9WitnessSlate_ne_nil : c9WitnessSlate ≠ [] := by
  show ((List.range 2).flatMap (fun i =>
    SportsAPIService.generateMockGames mockRand0 "soccer"
      (0 + (i : Int) * 86400000) "scheduled")) ≠ []
  rw [show List.range 2 = [0, 1] by decide, List.flatMap_cons]
  intro hnil
  exact generateMockGames_ne_nil mockRand0 "soccer" (0 + ((0 : Nat) : Int) * 86400000)
    "scheduled" (by norm_num [mockRand0]) (List.append_eq_nil.mp hnil).1

/-- C9 amended witness: the first record of a concrete mock slate is
scheduled with a zero home score. -/
theorem claim_C9_amended_witness :
    c9WitnessGame.status = "scheduled" ∧ c9WitnessGame.homeScore = 0 := by
  have h := claim_C9_amended ⟨false, false⟩
    (.ok { hasErrors := false, planLimited := false, response := [] })
    (fun _ => mockRand0) "soccer" 0 2 (Or.inl (by decide))
    (fun _ => ⟨by norm_num [mockRand0], by norm_num [mockRand0]⟩)
    c9WitnessGame (headD_mem c9WitnessSlate_ne_nil)
  exact ⟨h.1, h.2.1⟩

/-! ## Claims about the orchestrator refresh paths (C5, C1, C6, C10) -/

/-- After an upsert, some record carries the upserted `gameId`. -/
theorem upsert_exists_gameId (store : List GameRecord) (d : ScoreData) (now : Int) :
    ∃ r ∈ (Score.upsert store d now).1, r.gameId = d.gameId := by
  unfold Score.upsert
  cases hf : store.find? (fun r => r.gameId == d.gameId) with
  | some old =>
      refine ⟨_, List.mem_map_of_mem _ (List.mem_of_find?_eq_some hf), ?_⟩
      have hp : (old.gameId == d.gameId) = true := by simpa using List.find?_some hf
      rw [if_pos hp]
      show old.gameId = d.gameId
      simpa using hp
  | none =>
      exact ⟨_, List.mem_append_right store (List.mem_singleton_self _), rfl⟩

/-- An upsert never loses an existing `gameId`. -/
theorem upsert_preserves_gameId (store : List GameRecord) (d : ScoreData)
    (now : Int) (g : String) (h : ∃ r ∈ store, r.gameId = g) :
    ∃ r ∈ (Score.upsert store d now).1, r.gameId = g := by
  obtain ⟨r, hr, hg⟩ := h
  unfold Score.upsert
  cases hf : store.find? (fun x => x.gameId == d.gameId) with
  | some old =>
      by_cases hcase : (r.gameId == d.gameId) = true
      · refine ⟨_, List.mem_map_of_mem _ hr, ?_⟩
        rw [if_pos hcase]
        show old.gameId = g
        have h1 : old.gameId = d.gameId := by simpa using List.find?_some hf
        have h2 : r.gameId = d.gameId := by simpa using hcase
        rw [h1, ← h2, hg]
      · refine ⟨_, List.mem_map_of_mem _ hr, ?_⟩
        rw [if_neg hcase]
        exact hg
  | none => exact ⟨r, by simp [hr], hg⟩

theorem foldl_upsert_preserves (now : Int) :
    ∀ (scores : List ScoreData) (store : List GameRecord) (g : String),
      (∃ r ∈ store, r.gameId = g) →
      ∃ r ∈ scores.foldl (fun st s => (Score.upsert st s now).1) store, r.gameId = g := by
  intro scores
  induction scores with
  | nil => intro store g h; simpa using h
  | cons d rest ih =>
      intro store g h
      rw [List.foldl_cons]
      exact ih _ g (upsert_preserves_gameId _ d now g h)

/-- Upserting a whole slate leaves a record for each slate entry's id. -/
theorem foldl_upsert_exists (now : Int) :
    ∀ (scores : List ScoreData) (store : List GameRecord) (s : ScoreData),
      s ∈ scores →
      ∃ r ∈ scores.foldl (fun st d => (Score.upsert st d now).1) store,
        r.gameId = s.gameId := by
  intro scores
  induction scores with
  | nil => intro store s hs; simp at hs
  | cons d rest ih =>
      intro store s hs
      rw [List.foldl_cons]
      rcases List.mem_cons.mp hs with rfl | hs'
      · exact foldl_upsert_preserves now rest _ _ (upsert_exists_gameId store s now)
      · exact ih _ s hs'

/-- The result list a `refreshAllScores`-shaped fold produces, in terms of
each sport's adapter outcome. -/
theorem refreshAll_foldl_counts (fetch : String → Except String (List ScoreData))
    (now : Int) :
    ∀ (sports : List String) (store : List GameRecord) (acc : List (String × Nat)),
      (sports.foldl
        (fun acc sport =>
          match ScoreService.refreshScores (fetch sport) now acc.1 with
          | .ok (st, n) => (st, acc.2 ++ [(sport, n)])
          | .error _ => (acc.1, acc.2 ++ [(sport, 0)]))
        (store, acc)).2
      = acc ++ sports.map (fun sp =>
          (sp, match fetch sp with | .ok l => l.length | .error _ => 0)) := by
  intro sports
  induction sports with
  | nil => intro store acc; simp
  | cons sp rest ih =>
      intro store acc
      rw [List.foldl_cons]
      dsimp only
      cases hf : fetch sp with
      | error e =>
          rw [show (match ScoreService.refreshScores (Except.error e) now store with
              | .ok (st, n) => (st, acc ++ [(sp, n)])
              | .error _ => (store, acc ++ [(sp, 0)]))
            = (store, acc ++ [(sp, 0)]) from rfl]
          rw [ih, List.map_cons, hf]
          simp
      | ok l =>
          rw [show (match ScoreService.refreshScores (Except.ok l) now store with
              | .ok (st, n) => (st, acc ++ [(sp, n)])
              | .error _ => (store, acc ++ [(sp, 0)]))
            = (l.foldl (fun st s => (Score.upsert st s now).1) store,
               acc ++ [(sp, l.length)]) from rfl]
          rw [ih, List.map_cons, hf]
          simp

/-- C5: `refreshScores` performs the one adapter fetch it is given
unconditionally — on success it upserts every returned record (each
returned `gameId` ends up in the store) and returns the record count; on
adapter failure the error is rethrown unchanged.  `refreshAllScores` runs
over the fixed five-sport set in order, reporting each sport's count, with
a failed sport recorded as 0 while every other sport's refresh still runs
and is reported. -/
theorem claim_C5_refresh_error_semantics
    (fetch : String → Except String (List ScoreData)) (now : Int)
    (store : List GameRecord) :
    (∀ sport scores, fetch sport = .ok scores →
      ScoreService.refreshScores (fetch sport) now store
          = .ok (scores.foldl (fun st s => (Score.upsert st s now).1) store,
                 scores.length)
      ∧ ∀ s ∈ scores,
          ∃ r ∈ scores.foldl (fun st d => (Score.upsert st d now).1) store,
            r.gameId = s.gameId)
    ∧ (∀ sport e, fetch sport = .error e →
        ScoreService.refreshScores (fetch sport) now store = .error e)
    ∧ (ScoreService.refreshAllScores fetch now store).2
        = ScoreService.sports.map (fun sp =>
            (sp, match fetch sp with | .ok l => l.length | .error _ => 0)) := by
  refine ⟨?_, ?_, ?_⟩
  · intro sport scores hok
    rw [hok]
    exact ⟨rfl, fun s hs => foldl_upsert_exists now scores store s hs⟩
  · intro sport e herr
    rw [herr]
    rfl
  · unfold ScoreService.refreshAllScores
    rw [refreshAll_foldl_counts fetch now ScoreService.sports store []]
    rfl

/-- The C5 witness adapter: basketball's provider call throws, every other
sport returns one record. -/
def c5Fetch : String → Except String (List ScoreData) :=
  fun sp => if sp == "basketball" then .error "provider down" else .ok [c4Data]

/-- C5 witness: the explicit basketball refresh surfaces the provider
error, and the batch refresh still reports every other sport's count. -/
theorem claim_C5_refresh_error_semantics_witness :
    ScoreService.refreshScores (c5Fetch "basketball") 0 [] = .error "provider down"
    ∧ (ScoreService.refreshAllScores c5Fetch 0 []).2
        = [("football", 1), ("basketball", 0), ("baseball", 1),
           ("soccer", 1), ("hockey", 1)] := by
  have h := claim_C5_refresh_error_semantics c5Fetch 0 []
  refine ⟨h.2.1 "basketball" "provider down" rfl, ?_⟩
  rw [h.2.2]
  rfl

theorem range_div_gt_iff (startDate endDate : Int) :
    (((endDate : ℚ) - (startDate : ℚ)) / 86400000 > 7) ↔
      endDate - startDate > 604800000 := by
  rw [gt_iff_lt, lt_div_iff₀ (by norm_num : (0 : ℚ) < 86400000),
    show (7 : ℚ) * 86400000 = (((604800000 : Int) : ℚ)) by norm_num,
    show ((endDate : ℚ) - (startDate : ℚ)) = (((endDate - startDate : Int) : ℚ)) by
      push_cast; ring,
    Int.cast_lt, gt_iff_lt]

/-- C6: `getScoresByDateRange` fails with the inverted-range validation
error when `d1 > d2`, fails with the 7-day-cap validation error when
`d2 - d1` exceeds 7 days, and otherwise returns exactly the store's
records with `scheduledAt` in `[d1, d2]` — the function contains no
adapter call at all. -/
theorem claim_C6_date_range_validation (store : List GameRecord)
    (sportType : String) (startDate endDate : Int) :
    (startDate > endDate →
      ScoreService.getScoresByDateRange store sportType startDate endDate
        = .error "Start date must be before end date")
    ∧ (startDate ≤ endDate → endDate - startDate > 604800000 →
      ScoreService.getScoresByDateRange store sportType startDate endDate
        = .error "Date range cannot exceed 7 days")
    ∧ (startDate ≤ endDate → endDate - startDate ≤ 604800000 →
      ScoreService.getScoresByDateRange store sportType startDate endDate
        = .ok (Score.findByDateRange store sportType startDate endDate)
      ∧ (∀ r ∈ Score.findByDateRange store sportType startDate endDate,
          startDate ≤ r.scheduledAt ∧ r.scheduledAt ≤ endDate)) := by
  unfold ScoreService.getScoresByDateRange
  refine ⟨?_, ?_, ?_⟩
  · intro h
    rw [if_pos h]
  · intro h1 h2
    rw [if_neg (not_lt.mpr h1), if_pos ((range_div_gt_iff startDate endDate).mpr h2)]
  · intro h1 h2
    rw [if_neg (not_lt.mpr h1),
      if_neg (fun hc => absurd ((range_div_gt_iff startDate endDate).mp hc)
        (not_lt.mpr h2))]
    refine ⟨rfl, ?_⟩
    intro r hr
    unfold Score.findByDateRange at hr
    rw [mem_sortByKey, List.mem_filter] at hr
    have hp := hr.2
    simp only [Bool.and_eq_true, decide_eq_true_eq] at hp
    exact ⟨hp.1.2, hp.2⟩

/-- C6 witness: an inverted range, an 8-day range and a valid 7-day range
on an empty store. -/
theorem claim_C6_date_range_validation_witness :
    ScoreService.getScoresByDateRange [] "football" 10 5
        = .error "Start date must be before end date"
    ∧ ScoreService.getScoresByDateRange [] "football" 0 604800001
        = .error "Date range cannot exceed 7 days"
    ∧ ScoreService.getScoresByDateRange [] "football" 0 604800000 = .ok [] := by
  have h1 := claim_C6_date_range_validation [] "football" 10 5
  have h2 := claim_C6_date_range_validation [] "football" 0 604800001
  have h3 := claim_C6_date_range_validation [] "football" 0 604800000
  refine ⟨h1.1 (by omega), h2.2.1 (by omega) (by omega), ?_⟩
  rw [(h3.2.2 (by omega) (by omega)).1]
  rfl

theorem cacheAgeStale_some_iff (t now ttl : Int) :
    cacheAgeStale (some t) now ttl = true ↔ 1000 * ttl < now - t := by
  show decide ((ttl : ℚ) < ((now : ℚ) - (t : ℚ)) / 1000) = true ↔ 1000 * ttl < now - t
  rw [decide_eq_true_eq, lt_div_iff₀ (by norm_num : (0 : ℚ) < 1000),
    show ((ttl : ℚ) * 1000) = (((1000 * ttl : Int) : ℚ)) by push_cast; ring,
    show ((now : ℚ) - (t : ℚ)) = (((now - t : Int) : ℚ)) by push_cast; ring,
    Int.cast_lt]

theorem cacheAgeStale_iff (lu : Option Int) (now ttl : Int) :
    cacheAgeStale lu now ttl = true ↔
      (lu = none ∨ ∃ t, lu = some t ∧ 1000 * ttl < now - t) := by
  cases lu with
  | none => simp [cacheAgeStale]
  | some t => simp [cacheAgeStale_some_iff]

/-- C1: for a valid sport, `getLiveScores` performs exactly one Adapter
fetch (the one inside `refreshScores`) iff the refresh is forced or the
cache age — `now` minus the sport's max `lastUpdated`, infinite when no
record exists — exceeds the TTL (`now - t > 1000·ttl` milliseconds);
when the cache is fresh and no refresh is forced, no fetch happens and
the result is served from the unchanged store.  The configurable TTL
defaults to 300 seconds. -/
theorem claim_C1_ttl_freshness (fetch : String → Except String (List ScoreData))
    (ttl : Int) (sportType : String) (forceRefresh : Bool) (now : Int)
    (store : List GameRecord) (hv : validSports.contains sportType = true) :
    ((ScoreService.getLiveScores fetch ttl sportType forceRefresh now store).2 = 1 ↔
      (forceRefresh = true
        ∨ (Score.getCacheStatus store sportType).lastUpdate = none
        ∨ ∃ t, (Score.getCacheStatus store sportType).lastUpdate = some t
            ∧ 1000 * ttl < now - t))
    ∧ (forceRefresh = false →
        (∃ t, (Score.getCacheStatus store sportType).lastUpdate = some t
            ∧ now - t ≤ 1000 * ttl) →
        (ScoreService.getLiveScores fetch ttl sportType forceRefresh now store).2 = 0
        ∧ (ScoreService.getLiveScores fetch ttl sportType forceRefresh now store).1
            = .ok (store, ScoreService.liveScoresResult store sportType
                (Score.getCacheStatus store sportType) now))
    ∧ defaultCacheTTL = 300 := by
  have hvne : ¬((!validSports.contains sportType) = true) := by rw [hv]; decide
  refine ⟨?_, ?_, rfl⟩
  · unfold ScoreService.getLiveScores
    rw [if_neg hvne]
    by_cases hc : (forceRefresh || cacheAgeStale
        (Score.getCacheStatus store sportType).lastUpdate now ttl) = true
    · rw [if_pos hc]
      constructor
      · intro _
        have hc' : forceRefresh = true ∨ cacheAgeStale
            (Score.getCacheStatus store sportType).lastUpdate now ttl = true := by
          simpa using hc
        rcases hc' with hf | hs
        · exact Or.inl hf
        · rcases (cacheAgeStale_iff _ now ttl).mp hs with h | h
          exacts [Or.inr (Or.inl h), Or.inr (Or.inr h)]
      · intro _
        cases hres : ScoreService.refreshScores (fetch sportType) now store with
        | error e => rfl
        | ok p => cases p; rfl
    · rw [if_neg hc]
      rw [Bool.or_eq_true, not_or] at hc
      obtain ⟨hf, hs⟩ := hc
      rw [Bool.not_eq_true] at hf hs
      constructor
      · intro h
        simp at h
      · intro h
        exfalso
        have hstale : cacheAgeStale
            (Score.getCacheStatus store sportType).lastUpdate now ttl = true := by
          rcases h with h | h | h
          · rw [h] at hf; cases hf
          · exact (cacheAgeStale_iff _ now ttl).mpr (Or.inl h)
          · exact (cacheAgeStale_iff _ now ttl).mpr (Or.inr h)
        rw [hstale] at hs
        cases hs
  · intro hf hfresh
    obtain ⟨t, ht, hle⟩ := hfresh
    have hstale : cacheAgeStale
        (Score.getCacheStatus store sportType).lastUpdate now ttl = false := by
      rw [ht]
      cases hb : cacheAgeStale (some t) now ttl
      · rfl
      · exact absurd ((cacheAgeStale_some_iff t now ttl).mp hb) (not_lt.mpr hle)
    unfold ScoreService.getLiveScores
    rw [if_neg hvne, if_neg (by rw [hf, hstale]; decide)]
    exact ⟨rfl, rfl⟩

/-- C1 witness: a 99-second-old football cache is served without a fetch,
while a forced refresh on the same store fetches once. -/
theorem claim_C1_ttl_freshness_witness :
    (ScoreService.getLiveScores (fun _ => .ok []) 300 "football" false 100000 [c4Record]).2 = 0
    ∧ (ScoreService.getLiveScores (fun _ => .ok []) 300 "football" true 100000 [c4Record]).2 = 1 := by
  have h1 := claim_C1_ttl_freshness (fun _ => .ok []) 300 "football" false 100000
    [c4Record] (by decide)
  have h2 := claim_C1_ttl_freshness (fun _ => .ok []) 300 "football" true 100000
    [c4Record] (by decide)
  exact ⟨(h1.2.1 rfl ⟨1000, by decide, by decide⟩).1, h2.1.mpr (Or.inl rfl)⟩

/-- C10: `refreshAllScores` and `getCacheStatistics` iterate exactly the
five sports football, basketball, baseball, soccer, hockey; the sixth
valid sport `other` — which `getLiveScores` accepts and refreshes through
its stale path — is never refreshed by `refreshAllScores` and never
appears in `getCacheStatistics`. -/
theorem claim_C10_sport_set_gap :
    validSports.contains "other" = true
    ∧ ScoreService.sports = ["football", "basketball", "baseball", "soccer", "hockey"]
    ∧ ScoreService.sports.contains "other" = false
    ∧ (∀ (fetch : String → Except String (List ScoreData)) (now : Int)
        (store : List GameRecord),
        ((ScoreService.refreshAllScores fetch now store).2.map Prod.fst)
          = ScoreService.sports)
    ∧ (∀ store : List GameRecord,
        (ScoreService.getCacheStatistics store).map Prod.fst = ScoreService.sports)
    ∧ (∀ now : Int,
        (ScoreService.getLiveScores (fun _ => .ok []) 300 "other" false now []).2 = 1) := by
  refine ⟨by decide, rfl, by decide, ?_, ?_, ?_⟩
  · intro fetch now store
    unfold ScoreService.refreshAllScores
    rw [refreshAll_foldl_counts fetch now ScoreService.sports store []]
    rfl
  · intro store
    unfold ScoreService.getCacheStatistics
    rw [List.map_map]
    rfl
  · intro now
    rfl

end SSBP
